import Mathlib

set_option maxRecDepth 4000

/-!
Verification development for the Mi Band NFC verify scene
(`miband_nfc_scene_verify.c`).  The C code is shallowly embedded: the
sector authentication/read engine (`read_sector_with_keys`), the bulk
read routine (`miband_verify_read_card`), the comparison loop and the
event handler (`miband_nfc_scene_verify_on_event`) become Lean
functions over an explicit state, with the external NFC poller calls
modelled by an oracle (`NfcEnv`) indexed by a call counter.  UI-only
side effects (popup text, logging, delays used purely for display
pacing) are either dropped or recorded as trace events / action lists.
-/

namespace MiBandNfc

/-- Result codes of the synchronous MIFARE Classic poller calls
(`MfClassicError` in the Flipper SDK, an external collaborator of the
repository). -/
inductive MfClassicError
  | none
  | notPresent
  | protocol
  | auth
  | timeout
  deriving DecidableEq

/-- Key slot selector (`MfClassicKeyType` in the SDK). -/
inductive MfClassicKeyType
  | A
  | B
  deriving DecidableEq

/-- Card capacity class (`MfClassicType` in the SDK). -/
inductive MfClassicType
  | mini
  | oneK
  | fourK
  deriving DecidableEq

/-- A 6-byte sector key, modelled as its list of byte values. -/
abbrev MfClassicKey := List Nat

/-- The all-0xFF fallback key built by `read_sector_with_keys` with
`memset(keys_to_try[keys_count].data, 0xFF, 6)`. -/
def magicKey : MfClassicKey := List.replicate 6 255

/-- SDK helper `mf_classic_get_total_sectors_num`: sector count per
capacity class. -/
def mf_classic_get_total_sectors_num : MfClassicType → Nat
  | .mini => 5
  | .oneK => 16
  | .fourK => 40

/-- SDK helper `mf_classic_get_total_block_num`: block count per
capacity class. -/
def mf_classic_get_total_block_num : MfClassicType → Nat
  | .mini => 20
  | .oneK => 64
  | .fourK => 256

/-- SDK helper `mf_classic_get_first_block_num_of_sector`: sectors
below 32 have 4 blocks, the remaining ones 16. -/
def mf_classic_get_first_block_num_of_sector (sector : Nat) : Nat :=
  if sector < 32 then sector * 4 else 128 + (sector - 32) * 16

/-- SDK helper `mf_classic_get_blocks_num_in_sector`. -/
def mf_classic_get_blocks_num_in_sector (sector : Nat) : Nat :=
  if sector < 32 then 4 else 16

/-- SDK helper `mf_classic_is_sector_trailer`: a block is a sector
trailer when it is the last block of its sector. -/
def mf_classic_is_sector_trailer (block : Nat) : Bool :=
  if block < 128 then (block + 1) % 4 == 0 else (block + 1) % 16 == 0

/-- A MIFARE Classic card image (`MfClassicData`): block contents plus
the per-sector key-known bitmasks (`key_a_mask` / `key_b_mask`). -/
structure MfClassicData where
  ttype : MfClassicType
  block : Nat → List Nat
  key_a_mask : Nat → Bool
  key_b_mask : Nat → Bool

/-- SDK helper `mf_classic_is_key_found`: looks up the key-known bit of
a sector. -/
def mf_classic_is_key_found (d : MfClassicData) (sector : Nat) :
    MfClassicKeyType → Bool
  | .A => d.key_a_mask sector
  | .B => d.key_b_mask sector

/-- Block number of a sector's trailer block
(`mf_classic_get_sector_trailer_by_sector` returns this block of the
dump reinterpreted as `MfClassicSectorTrailer`). -/
def sector_trailer_block (sector : Nat) : Nat :=
  mf_classic_get_first_block_num_of_sector sector +
    mf_classic_get_blocks_num_in_sector sector - 1

/-- Key A of a sector as stored in the dump: bytes 0..5 of the trailer
block (`sec_tr->key_a.data`). -/
def sector_key_a (d : MfClassicData) (sector : Nat) : MfClassicKey :=
  (d.block (sector_trailer_block sector)).take 6

/-- Key B of a sector as stored in the dump: bytes 10..15 of the
trailer block (`sec_tr->key_b.data`). -/
def sector_key_b (d : MfClassicData) (sector : Nat) : MfClassicKey :=
  ((d.block (sector_trailer_block sector)).drop 10).take 6

/-- SDK helper `mf_classic_reset` followed by the type assignment the
scene performs: a zeroed image of the given capacity class. -/
def mf_classic_reset (t : MfClassicType) : MfClassicData :=
  { ttype := t
    block := fun _ => List.replicate 16 0
    key_a_mask := fun _ => false
    key_b_mask := fun _ => false }

/-- The counter part of the `VerifyTracker` progress singleton (the
`FuriString` status/error text fields are UI-only and omitted). -/
structure VerifyTracker where
  current_sector : Nat
  total_sectors : Nat
  sectors_read : Nat
  sectors_failed : Nat
  auth_attempts : Nat
  auth_successes : Nat
  blocks_compared : Nat
  blocks_different : Nat
  reading_complete : Bool
  deriving DecidableEq

/-- `verify_tracker_init`: all counters zeroed. -/
def verify_tracker_init : VerifyTracker :=
  { current_sector := 0
    total_sectors := 0
    sectors_read := 0
    sectors_failed := 0
    auth_attempts := 0
    auth_successes := 0
    blocks_compared := 0
    blocks_different := 0
    reading_complete := false }

/-- Observable NFC interactions of the read engine, recorded as a
trace: initial per-candidate authentications, mid-sector
re-authentications, and block reads (after retries). -/
inductive VerifyEvent
  | authCall (block : Nat) (key : MfClassicKey) (kt : MfClassicKeyType) (ok : Bool)
  | reauthCall (pos : Nat) (ok : Bool)
  | blockRead (blockIdx : Nat) (pos : Nat) (ok : Bool)
  deriving DecidableEq

/-- Oracle for the external radio: the n-th call to
`mf_classic_poller_sync_auth` returns `authResult n`, the n-th call to
`mf_classic_poller_sync_read_block` returns `readResult n`, and a
successful read of block `b` yields bytes `readData b`. -/
structure NfcEnv where
  authResult : Nat → MfClassicError
  readResult : Nat → MfClassicError
  readData : Nat → List Nat

/-- Mutable state threaded through the read engine: the progress
tracker, the freshly read image (`app->target_data`), the two oracle
call counters and the event trace. -/
structure VerifyState where
  tracker : VerifyTracker
  target : MfClassicData
  authCalls : Nat
  readCalls : Nat
  trace : List VerifyEvent

/-- One attempt of the per-block retry loop: the delay issued before it
(`furi_delay_ms(50)` when `retry > 0`, none otherwise) and the read
result. -/
structure RetryAttempt where
  delay_ms : Nat
  err : MfClassicError
  deriving DecidableEq

/-- The retry loop body of `read_sector_with_keys`:
`for(int retry = 0; retry < 3 && !block_read; retry++)`, with
`fuel = 3 - retry` iterations remaining.  Returns whether the block was
read, the attempts performed, and the advanced read-call counter. -/
def readBlockRetryGo (env : NfcEnv) :
    Nat → Nat → Nat → List RetryAttempt → Bool × List RetryAttempt × Nat
  | 0, _, calls, acc => (false, acc.reverse, calls)
  | fuel + 1, retry, calls, acc =>
    let d := if 0 < retry then 50 else 0
    let err := env.readResult calls
    let att : RetryAttempt := { delay_ms := d, err := err }
    if err = MfClassicError.none then
      (true, (att :: acc).reverse, calls + 1)
    else if err = MfClassicError.timeout then
      readBlockRetryGo env fuel (retry + 1) (calls + 1) (att :: acc)
    else
      (false, (att :: acc).reverse, calls + 1)

/-- Per-block read with retry logic, as in the C source (3 attempts,
retry only on timeout, 50ms delay before retries 2 and 3). -/
def readBlockRetry (env : NfcEnv) (calls : Nat) :
    Bool × List RetryAttempt × Nat :=
  readBlockRetryGo env 3 0 calls []

/-- `FURI_BIT_SET` on a per-sector bitmask. -/
def furi_bit_set_mask (m : Nat → Bool) (i : Nat) : Nat → Bool :=
  fun j => if j = i then true else m j

/-- Pointwise update of a block map (the read call writes into
`app->target_data->block[block_idx]`). -/
def set_block (b : Nat → List Nat) (i : Nat) (v : List Nat) :
    Nat → List Nat :=
  fun j => if j = i then v else b j

/-- The inner block loop of `read_sector_with_keys`, over the list of
remaining block-in-sector positions.  Re-authenticates when
`block_in_sector > 0 && block_in_sector % 2 == 0`; a re-auth failure or
an unrecovered read failure exits with `false` (the C code sets
`all_blocks_read = false` and breaks). -/
def readBlocksGo (env : NfcEnv) (first_block : Nat) :
    List Nat → VerifyState → Bool × VerifyState
  | [], s => (true, s)
  | pos :: rest, s =>
    let reauthNeeded : Bool := decide (0 < pos) && decide (pos % 2 = 0)
    let aerr := env.authResult s.authCalls
    let s1 :=
      if reauthNeeded then
        { s with
          authCalls := s.authCalls + 1
          trace := s.trace ++ [VerifyEvent.reauthCall pos (aerr = MfClassicError.none)] }
      else s
    if reauthNeeded && !(aerr = MfClassicError.none) then
      (false, s1)
    else
      let block_idx := first_block + pos
      let r := readBlockRetry env s1.readCalls
      let s2 :=
        { s1 with
          readCalls := r.2.2
          target :=
            if r.1 then
              { s1.target with
                block := set_block s1.target.block block_idx (env.readData block_idx) }
            else s1.target
          trace := s1.trace ++ [VerifyEvent.blockRead block_idx pos r.1] }
      if r.1 then readBlocksGo env first_block rest s2 else (false, s2)

/-- The candidate list built by `read_sector_with_keys` before any
authentication: dump Key A if its known-bit is set, then dump Key B if
known, then unconditionally the all-0xFF key of type A. -/
def buildKeys (d : MfClassicData) (sector : Nat) :
    List (MfClassicKey × MfClassicKeyType) :=
  ((if mf_classic_is_key_found d sector MfClassicKeyType.A then
      [(sector_key_a d sector, MfClassicKeyType.A)]
    else []) ++
   (if mf_classic_is_key_found d sector MfClassicKeyType.B then
      [(sector_key_b d sector, MfClassicKeyType.B)]
    else [])) ++
  [(magicKey, MfClassicKeyType.A)]

/-- The outer candidate loop of `read_sector_with_keys`: per candidate,
bump `auth_attempts`, authenticate against the sector's first block,
skip to the next candidate on failure; on success bump
`auth_successes`, run the block loop, and either set both key-known
bits of the freshly read image and return `true`, or continue with the
next candidate. -/
def tryKeysGo (env : NfcEnv) (first_block sector blocks_in_sector : Nat) :
    List (MfClassicKey × MfClassicKeyType) → VerifyState → Bool × VerifyState
  | [], s => (false, s)
  | (key, kt) :: rest, s =>
    let s1 := { s with tracker := { s.tracker with auth_attempts := s.tracker.auth_attempts + 1 } }
    let err := env.authResult s1.authCalls
    let s2 :=
      { s1 with
        authCalls := s1.authCalls + 1
        trace := s1.trace ++ [VerifyEvent.authCall first_block key kt (err = MfClassicError.none)] }
    if err ≠ MfClassicError.none then
      tryKeysGo env first_block sector blocks_in_sector rest s2
    else
      let s3 := { s2 with tracker := { s2.tracker with auth_successes := s2.tracker.auth_successes + 1 } }
      let r := readBlocksGo env first_block (List.range blocks_in_sector) s3
      if r.1 then
        (true,
         { r.2 with
           target :=
             { r.2.target with
               key_a_mask := furi_bit_set_mask r.2.target.key_a_mask sector
               key_b_mask := furi_bit_set_mask r.2.target.key_b_mask sector } })
      else
        tryKeysGo env first_block sector blocks_in_sector rest r.2

/-- `read_sector_with_keys`: build the candidate list, then run the
candidate loop.  (The `!sec_tr` NULL check of the C source cannot fire:
the SDK accessor never returns NULL for an in-range sector.) -/
def read_sector_with_keys (env : NfcEnv) (d : MfClassicData)
    (sector first_block blocks_in_sector : Nat) (s : VerifyState) :
    Bool × VerifyState :=
  tryKeysGo env first_block sector blocks_in_sector (buildKeys d sector) s

/-- The sector loop of `miband_verify_read_card`: per sector set
`current_sector`, run `read_sector_with_keys`, and bump `sectors_read`
or `sectors_failed`; any failed sector clears the overall flag but the
loop continues. -/
def readSectorsGo (env : NfcEnv) (d : MfClassicData) :
    List Nat → Bool → VerifyState → Bool × VerifyState
  | [], overall, s => (overall, s)
  | sector :: rest, overall, s =>
    let s1 := { s with tracker := { s.tracker with current_sector := sector } }
    let fb := mf_classic_get_first_block_num_of_sector sector
    let n := mf_classic_get_blocks_num_in_sector sector
    let r := read_sector_with_keys env d sector fb n s1
    if r.1 then
      readSectorsGo env d rest overall
        { r.2 with tracker := { r.2.tracker with sectors_read := r.2.tracker.sectors_read + 1 } }
    else
      readSectorsGo env d rest false
        { r.2 with tracker := { r.2.tracker with sectors_failed := r.2.tracker.sectors_failed + 1 } }

/-- `miband_verify_read_card`: fail immediately when the reference data
is invalid; otherwise reset the target image, loop over all sectors of
the card's capacity, and finish by marking the read complete. -/
def miband_verify_read_card (env : NfcEnv) (is_valid_nfc_data : Bool)
    (d : MfClassicData) (s : VerifyState) : Bool × VerifyState :=
  if !is_valid_nfc_data then (false, s)
  else
    let total := mf_classic_get_total_sectors_num d.ttype
    let s1 :=
      { s with
        tracker := { s.tracker with total_sectors := total }
        target := mf_classic_reset d.ttype }
    let r := readSectorsGo env d (List.range total) true s1
    (r.1,
     { r.2 with
       tracker := { r.2.tracker with current_sector := total, reading_complete := true } })

/-- Accumulator of the comparison loop: the two tracker counters plus
the local `data_match` flag and `different_blocks` count of the event
handler. -/
structure CompareAcc where
  blocks_compared : Nat
  blocks_different : Nat
  data_match : Bool
  different_blocks : Nat
  deriving DecidableEq

/-- One iteration of the comparison loop: `blocks_compared` is bumped
for every index, then block 0 and sector trailers are skipped, and a
16-byte mismatch bumps the difference counters and clears
`data_match`. -/
def compareStep (ref tgt : MfClassicData) (r : CompareAcc) (i : Nat) : CompareAcc :=
  let r1 := { r with blocks_compared := r.blocks_compared + 1 }
  if i = 0 then r1
  else if mf_classic_is_sector_trailer i then r1
  else if ref.block i ≠ tgt.block i then
    { r1 with
      data_match := false
      different_blocks := r1.different_blocks + 1
      blocks_different := r1.blocks_different + 1 }
  else r1

/-- The comparison loop of the `PollerDone` branch, starting from the
tracker's current counter values. -/
def compareImages (ref tgt : MfClassicData) (bc bd : Nat) : CompareAcc :=
  (List.range (mf_classic_get_total_block_num ref.ttype)).foldl
    (compareStep ref tgt)
    { blocks_compared := bc, blocks_different := bd, data_match := true, different_blocks := 0 }

/-- Predicate for a block index that the comparison loop actually
diffs and finds mismatching: not block 0, not a sector trailer, bytes
differ. -/
def is_compared_mismatch (ref tgt : MfClassicData) (i : Nat) : Bool :=
  decide (i ≠ 0) && !(mf_classic_is_sector_trailer i) && decide (ref.block i ≠ tgt.block i)

/-- The number of block indices the spec calls non-excluded: neither
block 0 nor a sector trailer.  (Stated from the spec's words, for
comparison with the implementation's counter.) -/
def non_excluded_block_count (t : MfClassicType) : Nat :=
  ((List.range (mf_classic_get_total_block_num t)).filter
    (fun i => decide (i ≠ 0) && !(mf_classic_is_sector_trailer i))).length

/-- Scene states of the verify scene. -/
inductive SceneState
  | cardSearch
  | reading
  | comparison
  deriving DecidableEq

/-- Custom events the verify scene handles. -/
inductive MiBandNfcCustomEvent
  | cardDetected
  | pollerDone
  | verifyExit
  | verifyViewDetails
  | pollerFailed
  deriving DecidableEq

/-- Poller command returned by the detection callback. -/
inductive NfcCommand
  | continueCmd
  | stopCmd
  deriving DecidableEq

/-- Poller event kinds delivered to the detection callback. -/
inductive MfClassicPollerEventType
  | cardDetected
  | requestMode
  | success
  | fail
  deriving DecidableEq

/-- `miband_verify_reader_callback`: the custom event it forwards to
the dispatcher (if any) and the command it returns.  Both `success` and
`fail` forward `pollerDone` and stop the poller. -/
def miband_verify_reader_callback :
    MfClassicPollerEventType → Option MiBandNfcCustomEvent × NfcCommand
  | .cardDetected => (some MiBandNfcCustomEvent.cardDetected, NfcCommand.continueCmd)
  | .requestMode => (Option.none, NfcCommand.continueCmd)
  | .success => (some MiBandNfcCustomEvent.pollerDone, NfcCommand.stopCmd)
  | .fail => (some MiBandNfcCustomEvent.pollerDone, NfcCommand.stopCmd)

/-- Externally visible side effects of the event handler. -/
inductive HandlerAction
  | stopPoller
  | showReadFailed
  | switchToMainMenu
  | showSuccess
  | showMismatchDialog (different_blocks : Nat)
  | gotoDiffViewer
  | showDetectionFailed
  | showCardDetected
  deriving DecidableEq

/-- The custom-event branch of `miband_nfc_scene_verify_on_event`:
returns the scene state it sets (if any), the ordered side effects, and
the updated verify state.  The `pollerDone` branch stops the poller,
sets the Comparison state, runs the bulk read, and either reports a
read failure, or compares the images and reports success or the
mismatch dialog. -/
def scene_verify_on_event (env : NfcEnv) (is_valid : Bool)
    (d : MfClassicData) (s : VerifyState) :
    MiBandNfcCustomEvent → Option SceneState × List HandlerAction × VerifyState
  | .cardDetected => (some SceneState.reading, [HandlerAction.showCardDetected], s)
  | .pollerDone =>
    let r := miband_verify_read_card env is_valid d s
    if !r.1 then
      (some SceneState.comparison,
       [HandlerAction.stopPoller, HandlerAction.showReadFailed, HandlerAction.switchToMainMenu],
       r.2)
    else
      let cmp := compareImages d r.2.target r.2.tracker.blocks_compared r.2.tracker.blocks_different
      let s3 :=
        { r.2 with
          tracker :=
            { r.2.tracker with
              blocks_compared := cmp.blocks_compared
              blocks_different := cmp.blocks_different } }
      if cmp.data_match = true ∧ cmp.different_blocks = 0 then
        (some SceneState.comparison,
         [HandlerAction.stopPoller, HandlerAction.showSuccess, HandlerAction.switchToMainMenu],
         s3)
      else
        (some SceneState.comparison,
         [HandlerAction.stopPoller, HandlerAction.showMismatchDialog cmp.different_blocks],
         s3)
  | .verifyExit => (Option.none, [HandlerAction.switchToMainMenu], s)
  | .verifyViewDetails => (Option.none, [HandlerAction.gotoDiffViewer], s)
  | .pollerFailed =>
    (Option.none, [HandlerAction.showDetectionFailed, HandlerAction.switchToMainMenu], s)

/-- Side effects of `miband_nfc_scene_verify_on_enter`, in order. -/
inductive EnterAction
  | previousScene
  | initTracker
  | setCardSearchState
  | resetPopup
  | switchToScannerView
  | startBlinkCyan
  | resetTargetData
  | startPoller
  deriving DecidableEq

/-- `miband_nfc_scene_verify_on_enter`: with invalid reference data it
only returns to the previous scene; otherwise it runs the full entry
sequence. -/
def miband_nfc_scene_verify_on_enter (is_valid_nfc_data : Bool) : List EnterAction :=
  if !is_valid_nfc_data then [EnterAction.previousScene]
  else
    [EnterAction.initTracker, EnterAction.setCardSearchState, EnterAction.resetPopup,
     EnterAction.switchToScannerView, EnterAction.startBlinkCyan, EnterAction.resetTargetData,
     EnterAction.startPoller]

/-- Fresh verify state at scene entry for a given capacity class. -/
def initVerifyState (t : MfClassicType) : VerifyState :=
  { tracker := verify_tracker_init
    target := mf_classic_reset t
    authCalls := 0
    readCalls := 0
    trace := [] }

/-- Oracle on which every poller call succeeds and every block read
returns 16 zero bytes. -/
def envGood : NfcEnv :=
  { authResult := fun _ => MfClassicError.none
    readResult := fun _ => MfClassicError.none
    readData := fun _ => List.replicate 16 0 }

/-- Oracle on which every poller call times out. -/
def envTimeout : NfcEnv :=
  { authResult := fun _ => MfClassicError.timeout
    readResult := fun _ => MfClassicError.timeout
    readData := fun _ => List.replicate 16 0 }

/-- Oracle whose second authentication call (the first mid-sector
re-authentication of a run) times out while every other call
succeeds. -/
def envReauthFail : NfcEnv :=
  { authResult := fun k => if k = 1 then MfClassicError.timeout else MfClassicError.none
    readResult := fun _ => MfClassicError.none
    readData := fun _ => List.replicate 16 0 }

/-- Mini-capacity reference dump with no known keys and zeroed data. -/
def dMini : MfClassicData := mf_classic_reset MfClassicType.mini

/-- Mini-capacity reference dump whose sector 0 records Key A as
known. -/
def dKeyA : MfClassicData :=
  { mf_classic_reset MfClassicType.mini with key_a_mask := fun sct => sct == 0 }

/-- 1K-capacity reference dump whose sector 5 records only Key B as
known. -/
def dKeyB : MfClassicData :=
  { mf_classic_reset MfClassicType.oneK with key_b_mask := fun sct => sct == 5 }

/-- Fresh state for a Mini-capacity run. -/
def sMini : VerifyState := initVerifyState MfClassicType.mini

/-- Fresh state for a 1K-capacity run. -/
def sOneK : VerifyState := initVerifyState MfClassicType.oneK

/-- The comparison accumulator the `pollerDone` branch of the event
handler computes after a successful bulk read. -/
def pollerDoneCompare (env : NfcEnv) (d : MfClassicData) (s : VerifyState) : CompareAcc :=
  compareImages d (miband_verify_read_card env true d s).2.target
    (miband_verify_read_card env true d s).2.tracker.blocks_compared
    (miband_verify_read_card env true d s).2.tracker.blocks_different

end MiBandNfc

namespace MiBandNfc

theorem readBlocksGo_trace_mono (env : NfcEnv) (fb : Nat) (L : List Nat) :
    ∀ (s : VerifyState) (e : VerifyEvent),
      e ∈ s.trace → e ∈ (readBlocksGo env fb L s).2.trace := by
  induction L with
  | nil => intro s e he; simpa [readBlocksGo] using he
  | cons p rest ih =>
    intro s e he
    simp only [readBlocksGo]
    split_ifs <;>
      first
        | exact ih _ _ (by simp [he])
        | simp [he]

theorem readBlocksGo_reauth_sound (env : NfcEnv) (fb : Nat) (L : List Nat) :
    ∀ (s : VerifyState) (p : Nat) (ok : Bool),
      VerifyEvent.reauthCall p ok ∈ (readBlocksGo env fb L s).2.trace →
      VerifyEvent.reauthCall p ok ∈ s.trace ∨ (p ∈ L ∧ 0 < p ∧ p % 2 = 0) := by
  induction L with
  | nil => intro s p ok h; left; simpa [readBlocksGo] using h
  | cons q rest ih =>
    intro s p ok h
    simp only [readBlocksGo] at h
    split_ifs at h with h1 h2 h3 h4 h5 <;>
      [skip; skip; (rcases ih _ _ _ h with h' | h'); skip;
       (rcases ih _ _ _ h with h' | h'); skip] <;>
      simp_all <;>
      first
        | tauto
        | aesop

theorem readBlocksGo_cons_even (env : NfcEnv) (fb q : Nat) (rest : List Nat) (s : VerifyState)
    (hq1 : 0 < q) (hq2 : q % 2 = 0)
    (ha : env.authResult s.authCalls = MfClassicError.none)
    (hr : env.readResult s.readCalls = MfClassicError.none) :
    readBlocksGo env fb (q :: rest) s =
      readBlocksGo env fb rest
        { tracker := s.tracker
          target := { s.target with
            block := set_block s.target.block (fb + q) (env.readData (fb + q)) }
          authCalls := s.authCalls + 1
          readCalls := s.readCalls + 1
          trace := s.trace ++
            [VerifyEvent.reauthCall q true, VerifyEvent.blockRead (fb + q) q true] } := by
  simp [readBlocksGo, hq1, hq2, ha, readBlockRetry, readBlockRetryGo, hr]

theorem readBlocksGo_cons_noReauth (env : NfcEnv) (fb q : Nat) (rest : List Nat)
    (s : VerifyState) (hq : ¬(0 < q ∧ q % 2 = 0))
    (hr : env.readResult s.readCalls = MfClassicError.none) :
    readBlocksGo env fb (q :: rest) s =
      readBlocksGo env fb rest
        { tracker := s.tracker
          target := { s.target with
            block := set_block s.target.block (fb + q) (env.readData (fb + q)) }
          authCalls := s.authCalls
          readCalls := s.readCalls + 1
          trace := s.trace ++ [VerifyEvent.blockRead (fb + q) q true] } := by
  rcases Decidable.not_and_iff_or_not.mp hq with h | h <;>
    simp [readBlocksGo, h, readBlockRetry, readBlockRetryGo, hr]

theorem readBlocksGo_cons_even_reauthFail (env : NfcEnv) (fb q : Nat) (rest : List Nat)
    (s : VerifyState) (hq1 : 0 < q) (hq2 : q % 2 = 0)
    (ha : env.authResult s.authCalls = MfClassicError.timeout) :
    readBlocksGo env fb (q :: rest) s =
      (false,
       { s with
         authCalls := s.authCalls + 1
         trace := s.trace ++ [VerifyEvent.reauthCall q false] }) := by
  simp [readBlocksGo, hq1, hq2, ha]

theorem readBlocksGo_allSuccess (env : NfcEnv)
    (ha : ∀ k, env.authResult k = MfClassicError.none)
    (hr : ∀ k, env.readResult k = MfClassicError.none)
    (fb : Nat) (L : List Nat) :
    ∀ s : VerifyState,
      (readBlocksGo env fb L s).1 = true ∧
      (readBlocksGo env fb L s).2.tracker = s.tracker ∧
      ∀ p ∈ L, 0 < p → p % 2 = 0 →
        VerifyEvent.reauthCall p true ∈ (readBlocksGo env fb L s).2.trace := by
  induction L with
  | nil => intro s; simp [readBlocksGo]
  | cons q rest ih =>
    intro s
    by_cases hq : 0 < q ∧ q % 2 = 0
    · rw [readBlocksGo_cons_even env fb q rest s hq.1 hq.2 (ha _) (hr _)]
      refine ⟨(ih _).1, by rw [(ih _).2.1], ?_⟩
      intro p hp h1 h2
      rcases List.mem_cons.mp hp with rfl | hp
      · exact readBlocksGo_trace_mono env fb rest _ _ (by simp)
      · exact (ih _).2.2 p hp h1 h2
    · rw [readBlocksGo_cons_noReauth env fb q rest s hq (hr _)]
      refine ⟨(ih _).1, by rw [(ih _).2.1], ?_⟩
      intro p hp h1 h2
      rcases List.mem_cons.mp hp with rfl | hp
      · exact absurd ⟨h1, h2⟩ hq
      · exact (ih _).2.2 p hp h1 h2

theorem tryKeysGo_masks (env : NfcEnv) (fb sector n : Nat)
    (ks : List (MfClassicKey × MfClassicKeyType)) :
    ∀ s : VerifyState,
      (tryKeysGo env fb sector n ks s).1 = true →
      (tryKeysGo env fb sector n ks s).2.target.key_a_mask sector = true ∧
      (tryKeysGo env fb sector n ks s).2.target.key_b_mask sector = true := by
  induction ks with
  | nil => intro s h; simp [tryKeysGo] at h
  | cons kk rest ih =>
    intro s h
    obtain ⟨key, kt⟩ := kk
    simp only [tryKeysGo] at h ⊢
    split_ifs at h ⊢ with h1 h2
    · exact ih _ h
    · simp [furi_bit_set_mask]
    · exact ih _ h

theorem compareStep_spec (ref tgt : MfClassicData) (acc : CompareAcc) (i : Nat) :
    (compareStep ref tgt acc i).blocks_compared = acc.blocks_compared + 1 ∧
    (compareStep ref tgt acc i).blocks_different =
      acc.blocks_different + (if is_compared_mismatch ref tgt i then 1 else 0) ∧
    (compareStep ref tgt acc i).different_blocks =
      acc.different_blocks + (if is_compared_mismatch ref tgt i then 1 else 0) ∧
    (compareStep ref tgt acc i).data_match =
      (acc.data_match && !(is_compared_mismatch ref tgt i)) := by
  unfold compareStep is_compared_mismatch
  by_cases h0 : i = 0
  · simp [h0]
  · by_cases ht : mf_classic_is_sector_trailer i = true
    · simp [h0, ht]
    · by_cases hd : ref.block i ≠ tgt.block i
      · simp [h0, ht, hd]
      · simp [h0, ht, hd]

theorem compare_foldl_spec (ref tgt : MfClassicData) (L : List Nat) :
    ∀ acc : CompareAcc,
      ((L.foldl (compareStep ref tgt) acc).blocks_compared =
        acc.blocks_compared + L.length) ∧
      ((L.foldl (compareStep ref tgt) acc).blocks_different =
        acc.blocks_different + (L.filter (is_compared_mismatch ref tgt)).length) ∧
      ((L.foldl (compareStep ref tgt) acc).different_blocks =
        acc.different_blocks + (L.filter (is_compared_mismatch ref tgt)).length) ∧
      ((L.foldl (compareStep ref tgt) acc).data_match =
        (acc.data_match && (L.filter (is_compared_mismatch ref tgt)).isEmpty)) := by
  induction L with
  | nil => intro acc; simp
  | cons i rest ih =>
    intro acc
    obtain ⟨s1, s2, s3, s4⟩ := compareStep_spec ref tgt acc i
    obtain ⟨i1, i2, i3, i4⟩ := ih (compareStep ref tgt acc i)
    rw [List.foldl_cons, List.filter_cons]
    cases hm : is_compared_mismatch ref tgt i <;> simp_all <;> omega

theorem compareImages_match_iff (ref tgt : MfClassicData) (bc bd : Nat) :
    (compareImages ref tgt bc bd).data_match = true ↔
      (compareImages ref tgt bc bd).different_blocks = 0 := by
  obtain ⟨h1, h2, h3, h4⟩ := compare_foldl_spec ref tgt
    (List.range (mf_classic_get_total_block_num ref.ttype))
    { blocks_compared := bc, blocks_different := bd, data_match := true, different_blocks := 0 }
  have h3' : (compareImages ref tgt bc bd).different_blocks =
      ((List.range (mf_classic_get_total_block_num ref.ttype)).filter
        (is_compared_mismatch ref tgt)).length := by
    simpa [compareImages] using h3
  have h4' : (compareImages ref tgt bc bd).data_match =
      ((List.range (mf_classic_get_total_block_num ref.ttype)).filter
        (is_compared_mismatch ref tgt)).isEmpty := by
    simpa [compareImages] using h4
  rw [h3', h4', List.isEmpty_iff, List.length_eq_zero]

/-- Counterexample to C3 as stated: on a Mini image (20 blocks, 5
trailers), `blocks_compared` ends at 20, not at the number of
non-excluded blocks (14): the counter is incremented before the
block-0/trailer skip checks, so excluded blocks are counted too. -/
theorem claim_C3_counterexample :
    (compareImages dMini dMini 0 0).blocks_compared = 20 ∧
    non_excluded_block_count MfClassicType.mini = 14 ∧
    (compareImages dMini dMini 0 0).blocks_compared ≠
      non_excluded_block_count MfClassicType.mini := by
  decide

/-- Claim C3 (amended): after the comparison loop, `blocks_compared`
counts EVERY block index of the card — including block 0 and the sector
trailers — i.e. it grows by the total block count; `blocks_different`
counts mismatches only among non-excluded blocks (neither block 0 nor a
trailer). -/
theorem claim_C3_amended (ref tgt : MfClassicData) (bc bd : Nat) :
    (compareImages ref tgt bc bd).blocks_compared =
      bc + mf_classic_get_total_block_num ref.ttype ∧
    (compareImages ref tgt bc bd).blocks_different =
      bd + ((List.range (mf_classic_get_total_block_num ref.ttype)).filter
        (is_compared_mismatch ref tgt)).length := by
  obtain ⟨h1, h2, h3, h4⟩ := compare_foldl_spec ref tgt
    (List.range (mf_classic_get_total_block_num ref.ttype))
    { blocks_compared := bc, blocks_different := bd, data_match := true, different_blocks := 0 }
  exact ⟨by simpa [compareImages] using h1, by simpa [compareImages] using h2⟩

/-- Claim C7: after a successful bulk read, the run reports the success
outcome if and only if the mismatched-block count is exactly zero; a
positive mismatch count yields the content-divergence choice dialog,
not the hard read-failure path. -/
theorem claim_C7 (env : NfcEnv) (d : MfClassicData) (s : VerifyState)
    (h : (miband_verify_read_card env true d s).1 = true) :
    (HandlerAction.showSuccess ∈
        (scene_verify_on_event env true d s MiBandNfcCustomEvent.pollerDone).2.1 ↔
      (pollerDoneCompare env d s).different_blocks = 0) ∧
    (0 < (pollerDoneCompare env d s).different_blocks →
      (scene_verify_on_event env true d s MiBandNfcCustomEvent.pollerDone).2.1 =
        [HandlerAction.stopPoller,
         HandlerAction.showMismatchDialog (pollerDoneCompare env d s).different_blocks] ∧
      HandlerAction.showReadFailed ∉
        (scene_verify_on_event env true d s MiBandNfcCustomEvent.pollerDone).2.1) := by
  have hpd : compareImages d (miband_verify_read_card env true d s).2.target
      (miband_verify_read_card env true d s).2.tracker.blocks_compared
      (miband_verify_read_card env true d s).2.tracker.blocks_different =
      pollerDoneCompare env d s := rfl
  by_cases hc : (pollerDoneCompare env d s).different_blocks = 0
  · have hdm : (pollerDoneCompare env d s).data_match = true := by
      rw [← hpd] at hc ⊢
      exact (compareImages_match_iff _ _ _ _).mpr hc
    refine ⟨?_, fun h' => absurd hc (by omega)⟩
    simp [scene_verify_on_event, h, hpd, hdm, hc]
  · have hdm : ¬((pollerDoneCompare env d s).data_match = true) := by
      rw [← hpd] at hc ⊢
      intro hdm'
      exact hc ((compareImages_match_iff _ _ _ _).mp hdm')
    constructor
    · simp [scene_verify_on_event, h, hpd, hdm, hc]
    · intro h'
      simp [scene_verify_on_event, h, hpd, hdm, hc]

/-- Witness for C7 at a concrete input: an all-success Mini run whose
read-back equals the dump reports the success outcome. -/
theorem claim_C7_witness :
    (miband_verify_read_card envGood true dMini sMini).1 = true ∧
    HandlerAction.showSuccess ∈
      (scene_verify_on_event envGood true dMini sMini MiBandNfcCustomEvent.pollerDone).2.1 :=
  ⟨by decide, (claim_C7 envGood dMini sMini (by decide)).1.mpr (by decide)⟩

/-- Counterexample to C4 as stated: a poller `fail` event is forwarded
as the same `pollerDone` custom event as `success`; the handler then
runs the bulk read — sector reads ARE attempted (5 authentication
attempts on a Mini card with an all-timeout oracle) — before reaching
the terminal failure route, contrary to "no sector read is
attempted". -/
theorem claim_C4_counterexample :
    miband_verify_reader_callback MfClassicPollerEventType.fail =
      (some MiBandNfcCustomEvent.pollerDone, NfcCommand.stopCmd) ∧
    (scene_verify_on_event envTimeout true dMini sMini MiBandNfcCustomEvent.pollerDone).1 =
      some SceneState.comparison ∧
    (scene_verify_on_event envTimeout true dMini sMini MiBandNfcCustomEvent.pollerDone).2.1 =
      [HandlerAction.stopPoller, HandlerAction.showReadFailed,
       HandlerAction.switchToMainMenu] ∧
    (scene_verify_on_event envTimeout true dMini sMini
      MiBandNfcCustomEvent.pollerDone).2.2.tracker.auth_attempts = 5 ∧
    (scene_verify_on_event envTimeout true dMini sMini
      MiBandNfcCustomEvent.pollerDone).2.2.tracker.auth_attempts ≠ 0 := by
  decide

/-- Claim C4 (amended): on a poller failure event the detection
callback emits the same `pollerDone` event as on success; the handler
then stops the poller, sets the Comparison state (the Reading state is
never entered), and runs the full bulk read — sector reads are
attempted; when that read fails, the scene shows the read failure and
exits to the main menu (terminal failure).  The dedicated
`pollerFailed` terminal path exists but is not reachable from this
scene's detection callback. -/
theorem claim_C4_amended (env : NfcEnv) (d : MfClassicData) (s : VerifyState)
    (h : (miband_verify_read_card env true d s).1 = false) :
    miband_verify_reader_callback MfClassicPollerEventType.fail =
      (some MiBandNfcCustomEvent.pollerDone, NfcCommand.stopCmd) ∧
    scene_verify_on_event env true d s MiBandNfcCustomEvent.pollerDone =
      (some SceneState.comparison,
       [HandlerAction.stopPoller, HandlerAction.showReadFailed,
        HandlerAction.switchToMainMenu],
       (miband_verify_read_card env true d s).2) := by
  refine ⟨rfl, ?_⟩
  simp [scene_verify_on_event, h]

/-- Witness for the amended C4 at a concrete input. -/
theorem claim_C4_witness :
    (miband_verify_read_card envTimeout true dMini sMini).1 = false ∧
    (miband_verify_reader_callback MfClassicPollerEventType.fail =
       (some MiBandNfcCustomEvent.pollerDone, NfcCommand.stopCmd) ∧
     scene_verify_on_event envTimeout true dMini sMini MiBandNfcCustomEvent.pollerDone =
       (some SceneState.comparison,
        [HandlerAction.stopPoller, HandlerAction.showReadFailed,
         HandlerAction.switchToMainMenu],
        (miband_verify_read_card envTimeout true dMini sMini).2)) :=
  ⟨by decide, claim_C4_amended envTimeout dMini sMini (by decide)⟩

/-- Claim C1: the key candidate list built before authentication is the
dump's Key A (only if recorded as known), then the dump's Key B (only
if known), then the all-0xFF key of type A appended unconditionally as
the last candidate; it always has between 1 and 3 entries. -/
theorem claim_C1 (d : MfClassicData) (sector : Nat) :
    1 ≤ (buildKeys d sector).length ∧ (buildKeys d sector).length ≤ 3 ∧
    (buildKeys d sector).getLast? = some (magicKey, MfClassicKeyType.A) ∧
    (buildKeys d sector).dropLast =
      (if d.key_a_mask sector = true then [(sector_key_a d sector, MfClassicKeyType.A)] else []) ++
      (if d.key_b_mask sector = true then [(sector_key_b d sector, MfClassicKeyType.B)] else []) := by
  cases hA : d.key_a_mask sector <;> cases hB : d.key_b_mask sector <;>
    simp [buildKeys, mf_classic_is_key_found, hA, hB]

/-- Claim C5: each block read performs at most 3 attempts, at least
one; every attempt that has a successor ended in a timeout (any
non-timeout outcome ends the attempts); the first attempt is not
preceded by a delay, every later attempt is preceded by a 50ms
delay. -/
theorem claim_C5 (env : NfcEnv) (calls : Nat) :
    1 ≤ (readBlockRetry env calls).2.1.length ∧
    (readBlockRetry env calls).2.1.length ≤ 3 ∧
    (∀ a ∈ (readBlockRetry env calls).2.1.dropLast, a.err = MfClassicError.timeout) ∧
    (∀ a ∈ (readBlockRetry env calls).2.1.take 1, a.delay_ms = 0) ∧
    (∀ a ∈ (readBlockRetry env calls).2.1.drop 1, a.delay_ms = 50) := by
  unfold readBlockRetry
  cases h0 : env.readResult calls
  case timeout =>
    cases h1 : env.readResult (calls + 1)
    case timeout =>
      cases h2 : env.readResult (calls + 1 + 1) <;>
        simp [readBlockRetryGo, h0, h1, h2]
    all_goals simp [readBlockRetryGo, h0, h1]
  all_goals simp [readBlockRetryGo, h0]

/-- Claim C10: with the reference NFC data marked invalid, scene entry
only returns to the previous scene (no tracker reset, no poller start,
no target modification), and the bulk read returns failure with the
state untouched. -/
theorem claim_C10 (env : NfcEnv) (d : MfClassicData) (s : VerifyState) (valid : Bool)
    (h : valid = false) :
    miband_nfc_scene_verify_on_enter valid = [EnterAction.previousScene] ∧
    EnterAction.initTracker ∉ miband_nfc_scene_verify_on_enter valid ∧
    EnterAction.startPoller ∉ miband_nfc_scene_verify_on_enter valid ∧
    EnterAction.resetTargetData ∉ miband_nfc_scene_verify_on_enter valid ∧
    miband_verify_read_card env valid d s = (false, s) := by
  subst h
  simp [miband_nfc_scene_verify_on_enter, miband_verify_read_card]

/-- Claim C6: within a sector, a re-authentication is issued exactly at
block-in-sector positions that are positive multiples of 2 and never at
position 0: every re-auth event of a run is at such a position, and in
a run where every poller call succeeds (so the full sector is
traversed) every such position below the block count gets a successful
re-auth. -/
theorem claim_C6 (env : NfcEnv) (fb n : Nat) (s : VerifyState) :
    (∀ p ok, VerifyEvent.reauthCall p ok ∈ (readBlocksGo env fb (List.range n) s).2.trace →
      VerifyEvent.reauthCall p ok ∈ s.trace ∨ (0 < p ∧ p % 2 = 0 ∧ p < n)) ∧
    ((∀ k, env.authResult k = MfClassicError.none) →
     (∀ k, env.readResult k = MfClassicError.none) →
      ∀ p, p < n → 0 < p → p % 2 = 0 →
        VerifyEvent.reauthCall p true ∈ (readBlocksGo env fb (List.range n) s).2.trace) := by
  constructor
  · intro p ok h
    rcases readBlocksGo_reauth_sound env fb (List.range n) s p ok h with h' | ⟨hmem, h1, h2⟩
    · exact Or.inl h'
    · exact Or.inr ⟨h1, h2, List.mem_range.mp hmem⟩
  · intro ha hr p hp h1 h2
    exact (readBlocksGo_allSuccess env ha hr fb (List.range n) s).2.2 p
      (List.mem_range.mpr hp) h1 h2

/-- Witness for C6 at a concrete input: over a 4-block sector with an
all-success oracle, position 2 receives a re-authentication. -/
theorem claim_C6_witness :
    VerifyEvent.reauthCall 2 true ∈ (readBlocksGo envGood 0 (List.range 4) sMini).2.trace :=
  (claim_C6 envGood 0 4 sMini).2 (fun _ => rfl) (fun _ => rfl) 2 (by decide) (by decide)
    (by decide)

/-- Claim C8: whenever `read_sector_with_keys` succeeds, both the Key A
and the Key B known-flags of that sector are set in the freshly read
card image, regardless of which candidate authenticated. -/
theorem claim_C8 (env : NfcEnv) (d : MfClassicData) (sector fb n : Nat) (s : VerifyState)
    (h : (read_sector_with_keys env d sector fb n s).1 = true) :
    (read_sector_with_keys env d sector fb n s).2.target.key_a_mask sector = true ∧
    (read_sector_with_keys env d sector fb n s).2.target.key_b_mask sector = true :=
  tryKeysGo_masks env fb sector n (buildKeys d sector) s h

/-- Witness for C8 at a concrete input: an all-success run over sector
0 sets both key-known flags. -/
theorem claim_C8_witness :
    (read_sector_with_keys envGood dMini 0 0 4 sMini).1 = true ∧
    ((read_sector_with_keys envGood dMini 0 0 4 sMini).2.target.key_a_mask 0 = true ∧
     (read_sector_with_keys envGood dMini 0 0 4 sMini).2.target.key_b_mask 0 = true) :=
  ⟨by decide, claim_C8 envGood dMini 0 0 4 sMini (by decide)⟩

/-- Counterexample to C2 as stated: sector 0's Key A is known; the
initial authentication with it succeeds, the mid-sector
re-authentication at position 2 fails, yet the sector is NOT aborted
and marked failed — the reader falls back to the 0xFF candidate (a
second `authCall` event, `auth_attempts = 2`) and the sector read
returns success. -/
theorem claim_C2_counterexample :
    (read_sector_with_keys envReauthFail dKeyA 0 0 4 sMini).1 = true ∧
    VerifyEvent.reauthCall 2 false ∈
      (read_sector_with_keys envReauthFail dKeyA 0 0 4 sMini).2.trace ∧
    VerifyEvent.authCall 0 magicKey MfClassicKeyType.A true ∈
      (read_sector_with_keys envReauthFail dKeyA 0 0 4 sMini).2.trace ∧
    (read_sector_with_keys envReauthFail dKeyA 0 0 4 sMini).2.tracker.auth_attempts = 2 := by
  decide

/-- Claim C2 (amended): a re-authentication failure mid-sector aborts
only the current key attempt; the reader then falls back to trying the
remaining key candidates for that sector (the sector is marked failed
only if every candidate fails).  Concretely: when the first candidate
authenticates, blocks 0 and 1 read successfully, and the re-auth at
position 2 fails, the sector read equals the candidate loop restarted
on the remaining candidates from a state whose trace records the failed
re-auth. -/
theorem claim_C2_amended (env : NfcEnv) (d : MfClassicData) (sector fb : Nat)
    (s : VerifyState)
    (h0 : env.authResult s.authCalls = MfClassicError.none)
    (hr0 : env.readResult s.readCalls = MfClassicError.none)
    (hr1 : env.readResult (s.readCalls + 1) = MfClassicError.none)
    (h1 : env.authResult (s.authCalls + 1) = MfClassicError.timeout) :
    ∃ s1, read_sector_with_keys env d sector fb 4 s =
        tryKeysGo env fb sector 4 ((buildKeys d sector).drop 1) s1 ∧
      VerifyEvent.reauthCall 2 false ∈ s1.trace := by
  have hne : buildKeys d sector ≠ [] := by
    cases hA : d.key_a_mask sector <;> cases hB : d.key_b_mask sector <;>
      simp [buildKeys, mf_classic_is_key_found, hA, hB]
  obtain ⟨⟨key, kt⟩, rest, hk⟩ := List.exists_cons_of_ne_nil hne
  have hrange : List.range 4 = [0, 1, 2, 3] := by decide
  rw [read_sector_with_keys, hk]
  simp only [tryKeysGo, h0, ne_eq, not_true_eq_false, if_false, hrange]
  rw [readBlocksGo_cons_noReauth]
  rotate_left
  · decide
  · exact hr0
  rw [readBlocksGo_cons_noReauth]
  rotate_left
  · decide
  · exact hr1
  rw [readBlocksGo_cons_even_reauthFail]
  rotate_left
  · decide
  · decide
  · exact h1
  simp only [Bool.false_eq_true, if_false, hk, List.drop_succ_cons, List.drop_zero]
  refine ⟨_, rfl, ?_⟩
  simp

/-- Witness for the amended C2 at a concrete input. -/
theorem claim_C2_witness :
    (envReauthFail.authResult sMini.authCalls = MfClassicError.none ∧
     envReauthFail.readResult sMini.readCalls = MfClassicError.none ∧
     envReauthFail.readResult (sMini.readCalls + 1) = MfClassicError.none ∧
     envReauthFail.authResult (sMini.authCalls + 1) = MfClassicError.timeout) ∧
    (∃ s1, read_sector_with_keys envReauthFail dKeyA 0 0 4 sMini =
        tryKeysGo envReauthFail 0 0 4 ((buildKeys dKeyA 0).drop 1) s1 ∧
      VerifyEvent.reauthCall 2 false ∈ s1.trace) :=
  ⟨⟨by decide, by decide, by decide, by decide⟩,
   claim_C2_amended envReauthFail dKeyA 0 0 sMini (by decide) (by decide) (by decide)
     (by decide)⟩

/-- Counterexample to C9 as stated: sector 5 of a 1K dump with Key A
unknown and Key B known, all poller calls succeeding.  The sector is
read successfully but `auth_attempts` increments exactly once — there
is no additional failed "implicit check" for the unknown Key A, so the
claimed lower bound of two increments is false. -/
theorem claim_C9_counterexample :
    (read_sector_with_keys envGood dKeyB 5 20 4 sOneK).1 = true ∧
    (read_sector_with_keys envGood dKeyB 5 20 4 sOneK).2.tracker.auth_attempts = 1 ∧
    ¬(2 ≤ (read_sector_with_keys envGood dKeyB 5 20 4 sOneK).2.tracker.auth_attempts) := by
  decide

/-- Claim C9 (amended): for a sector whose Key A is unknown in the dump
and whose Key B is known and authenticates successfully (with all reads
succeeding), the `auth_attempts` counter increments exactly once — Key
B is the first and only dump candidate tried, and no attempt is made
for the unknown Key A — `auth_successes` increments once, and the
sector is marked read successfully. -/
theorem claim_C9_amended (env : NfcEnv) (d : MfClassicData) (sector fb n : Nat)
    (s : VerifyState)
    (hA : d.key_a_mask sector = false) (hB : d.key_b_mask sector = true)
    (ha : ∀ k, env.authResult k = MfClassicError.none)
    (hr : ∀ k, env.readResult k = MfClassicError.none) :
    (read_sector_with_keys env d sector fb n s).1 = true ∧
    (read_sector_with_keys env d sector fb n s).2.tracker.auth_attempts =
      s.tracker.auth_attempts + 1 ∧
    (read_sector_with_keys env d sector fb n s).2.tracker.auth_successes =
      s.tracker.auth_successes + 1 := by
  have hkeys : buildKeys d sector =
      [(sector_key_b d sector, MfClassicKeyType.B), (magicKey, MfClassicKeyType.A)] := by
    simp [buildKeys, mf_classic_is_key_found, hA, hB]
  have hall1 : ∀ t, (readBlocksGo env fb (List.range n) t).1 = true :=
    fun t => (readBlocksGo_allSuccess env ha hr fb (List.range n) t).1
  have hall2 : ∀ t, (readBlocksGo env fb (List.range n) t).2.tracker = t.tracker :=
    fun t => (readBlocksGo_allSuccess env ha hr fb (List.range n) t).2.1
  rw [read_sector_with_keys, hkeys]
  simp [tryKeysGo, ha, hall1, hall2]

/-- Witness for the amended C9 at a concrete input. -/
theorem claim_C9_witness :
    (dKeyB.key_a_mask 5 = false ∧ dKeyB.key_b_mask 5 = true) ∧
    ((read_sector_with_keys envGood dKeyB 5 20 4 sOneK).1 = true ∧
     (read_sector_with_keys envGood dKeyB 5 20 4 sOneK).2.tracker.auth_attempts =
       sOneK.tracker.auth_attempts + 1 ∧
     (read_sector_with_keys envGood dKeyB 5 20 4 sOneK).2.tracker.auth_successes =
       sOneK.tracker.auth_successes + 1) :=
  ⟨⟨rfl, rfl⟩,
   claim_C9_amended envGood dKeyB 5 20 4 sOneK rfl rfl (fun _ => rfl) (fun _ => rfl)⟩

/-- Witness for C10 at a concrete input. -/
theorem claim_C10_witness :
    (false = false) ∧
    (miband_nfc_scene_verify_on_enter false = [EnterAction.previousScene] ∧
     EnterAction.initTracker ∉ miband_nfc_scene_verify_on_enter false ∧
     EnterAction.startPoller ∉ miband_nfc_scene_verify_on_enter false ∧
     EnterAction.resetTargetData ∉ miband_nfc_scene_verify_on_enter false ∧
     miband_verify_read_card envGood false dMini sMini = (false, sMini)) :=
  ⟨rfl, claim_C10 envGood dMini sMini false rfl⟩

end MiBandNfc
